import Mathlib

/-!
Verification of the socket core (src/src/core/sock.c) of the early
scalable-messaging library.

The C functions are embedded shallowly as Lean functions that return the
trace of externally visible actions they perform (dispatcher lock/unlock,
pattern-behavior hook invocations, condition-variable operations, posted
events, fatal assertions) together with the value returned to the caller.
The pattern behavior (the vfptr in the C source) is an external
collaborator, so its hook results enter each embedded function as an
oracle: a single return code for the one-shot hooks, and a list of
successive return codes for the send/recv hooks that are re-invoked inside
the blocking-retry loop.  A blocking send/recv whose oracle is exhausted
before the loop exits is still parked on the condition variable; its
result is modelled as none.
-/

/-- Identity of one of the two event slots a pipe owns.  In the C source
these are the inevent and outevent fields embedded in sp_pipebase; the
sp_cont macro recovers the owning pipe from the field's address, so in the
model the identity simply carries its owner. -/
inductive EvId where
  | inevent (pipe : Nat)
  | outevent (pipe : Nat)
  deriving DecidableEq

/-- The owning pipe recovered from an event identity (the sp_cont macro). -/
def EvId.pipe : EvId → Nat
  | .inevent p => p
  | .outevent p => p

/-- One externally visible action of the socket core. -/
inductive Ev where
  | lock
  | unlock
  | condWait (timeout : Int)
  | condPost
  | condTerm
  | aioTerm
  | aioPost (tag : Int) (ident : EvId)
  | hookSend (rc : Int)
  | hookRecv (rc : Int)
  | hookSetopt (option : Int) (rc : Int)
  | hookGetopt (option : Int) (rc : Int)
  | hookAdd (rc : Int)
  | hookRm
  | hookIn (pipe : Nat) (rc : Int)
  | hookOut (pipe : Nat) (rc : Int)
  | hookTerm
  | hookTimeout (hndl : Nat)
  | fatal
  deriving DecidableEq

/-- Does this action invoke a pattern-behavior hook? -/
def Ev.isHook : Ev → Bool
  | .hookSend _ => true
  | .hookRecv _ => true
  | .hookSetopt _ _ => true
  | .hookGetopt _ _ => true
  | .hookAdd _ => true
  | .hookRm => true
  | .hookIn _ _ => true
  | .hookOut _ _ => true
  | .hookTerm => true
  | .hookTimeout _ => true
  | _ => false

/-- Modelled from the spec: the generic socket option level (declared in
the library's public header, which is not under src/).  Only equality with
it is ever tested, so its concrete value is immaterial. -/
def SP_SOL_SOCKET : Int := 0

/-- Modelled from the spec: the non-blocking flag bit for send/recv
(declared in the library's public header, which is not under src/).  Only
whether it is set in the flags word matters. -/
def SP_DONTWAIT : Nat := 1

/-- System errno used by the code for the would-block signal (Linux value);
the code only compares against it. -/
def EAGAIN : Int := 11

/-- System errno used by the code for option-not-recognized (Linux value);
the code only compares against it. -/
def ENOPROTOOPT : Int := 92

/-- Tag of a posted in-event (SP_SOCK_EVENT_IN in sock.c). -/
def SP_SOCK_EVENT_IN : Int := 1

/-- Tag of a posted out-event (SP_SOCK_EVENT_OUT in sock.c). -/
def SP_SOCK_EVENT_OUT : Int := 2

/-- sp_sock_term: terminate the derived class via the pattern's term hook,
then terminate the condition variable, then the aio (dispatcher) binding. -/
def sp_sock_term : List Ev := [Ev.hookTerm, Ev.condTerm, Ev.aioTerm]

/-- sp_sock_setopt: lock the aio; if level is SP_SOL_SOCKET consult the
pattern's setopt hook (whose return code is the oracle hookRc) and return
its result unless it is -ENOPROTOOPT; otherwise fall through, unlock and
return -ENOPROTOOPT. -/
def sp_sock_setopt (level option hookRc : Int) : List Ev × Int :=
  if level = SP_SOL_SOCKET then
    if hookRc ≠ -ENOPROTOOPT then
      ([Ev.lock, Ev.hookSetopt option hookRc, Ev.unlock], hookRc)
    else
      ([Ev.lock, Ev.hookSetopt option hookRc, Ev.unlock], -ENOPROTOOPT)
  else
    ([Ev.lock, Ev.unlock], -ENOPROTOOPT)

/-- sp_sock_getopt: same control structure as sp_sock_setopt with the
pattern's getopt hook. -/
def sp_sock_getopt (level option hookRc : Int) : List Ev × Int :=
  if level = SP_SOL_SOCKET then
    if hookRc ≠ -ENOPROTOOPT then
      ([Ev.lock, Ev.hookGetopt option hookRc, Ev.unlock], hookRc)
    else
      ([Ev.lock, Ev.hookGetopt option hookRc, Ev.unlock], -ENOPROTOOPT)
  else
    ([Ev.lock, Ev.unlock], -ENOPROTOOPT)

/-- The while(1) loop of sp_sock_send, after the aio lock is taken.  Each
element of the oracle is the return code of one invocation of the
pattern's non-blocking send hook; sp_cond_wait with infinite timeout (-1)
returns 0, satisfying the errnum_assert.  An exhausted oracle means the
caller is still parked in the loop: result none. -/
def sp_sock_send_loop (flags : Nat) : List Int → List Ev × Option Int
  | [] => ([], none)
  | rc :: rest =>
    if rc = 0 then
      ([Ev.hookSend rc, Ev.unlock], some 0)
    else if rc ≠ -EAGAIN then
      ([Ev.hookSend rc, Ev.unlock], some rc)
    else if flags &&& SP_DONTWAIT ≠ 0 then
      ([Ev.hookSend rc, Ev.unlock], some (-EAGAIN))
    else
      (Ev.hookSend rc :: Ev.condWait (-1) :: (sp_sock_send_loop flags rest).1,
        (sp_sock_send_loop flags rest).2)

/-- sp_sock_send: lock the aio, then run the blocking-retry loop. -/
def sp_sock_send (flags : Nat) (hook : List Int) : List Ev × Option Int :=
  (Ev.lock :: (sp_sock_send_loop flags hook).1, (sp_sock_send_loop flags hook).2)

/-- The while(1) loop of sp_sock_recv, after the aio lock is taken; same
shape as the send loop with the pattern's non-blocking recv hook. -/
def sp_sock_recv_loop (flags : Nat) : List Int → List Ev × Option Int
  | [] => ([], none)
  | rc :: rest =>
    if rc = 0 then
      ([Ev.hookRecv rc, Ev.unlock], some 0)
    else if rc ≠ -EAGAIN then
      ([Ev.hookRecv rc, Ev.unlock], some rc)
    else if flags &&& SP_DONTWAIT ≠ 0 then
      ([Ev.hookRecv rc, Ev.unlock], some (-EAGAIN))
    else
      (Ev.hookRecv rc :: Ev.condWait (-1) :: (sp_sock_recv_loop flags rest).1,
        (sp_sock_recv_loop flags rest).2)

/-- sp_sock_recv: lock the aio, then run the blocking-retry loop. -/
def sp_sock_recv (flags : Nat) (hook : List Int) : List Ev × Option Int :=
  (Ev.lock :: (sp_sock_recv_loop flags hook).1, (sp_sock_recv_loop flags hook).2)

/-- sp_sock_add: forward the call directly to the pattern's add hook and
return whatever it returns.  Note: no aio lock is taken here. -/
def sp_sock_add (hookRc : Int) : List Ev × Int := ([Ev.hookAdd hookRc], hookRc)

/-- sp_sock_rm: forward the call directly to the pattern's rm hook.
Note: no aio lock is taken here. -/
def sp_sock_rm : List Ev := [Ev.hookRm]

/-- sp_sock_in: post an event on the aio tagged SP_SOCK_EVENT_IN carrying
the pipe's inevent identity. -/
def sp_sock_in (pipe : Nat) : List Ev :=
  [Ev.aioPost SP_SOCK_EVENT_IN (EvId.inevent pipe)]

/-- sp_sock_out: post an event on the aio tagged SP_SOCK_EVENT_OUT
carrying the pipe's outevent identity. -/
def sp_sock_out (pipe : Nat) : List Ev :=
  [Ev.aioPost SP_SOCK_EVENT_OUT (EvId.outevent pipe)]

/-- sp_sock_io in sock.c: the raw I/O callback of the aio vfptr; its whole
body is sp_assert(0), a fatal assertion.  It returns nothing to anybody. -/
def sp_sock_io_cb : List Ev := [Ev.fatal]

/-- sp_sock_event: the posted-event callback.  Dispatch on the tag: for
SP_SOCK_EVENT_IN recover the pipe from the inevent identity and call the
pattern's in hook, for SP_SOCK_EVENT_OUT the out hook (hookRc is the
oracle for that hook's return code); errnum_assert aborts on a negative
return; on return 1 the condition variable is posted; any other tag is a
fatal assertion. -/
def sp_sock_event (event : Int) (hndl : EvId) (hookRc : Int) : List Ev :=
  if event = SP_SOCK_EVENT_IN then
    Ev.hookIn hndl.pipe hookRc ::
      (if hookRc < 0 then [Ev.fatal]
       else if hookRc = 1 then [Ev.condPost] else [])
  else if event = SP_SOCK_EVENT_OUT then
    Ev.hookOut hndl.pipe hookRc ::
      (if hookRc < 0 then [Ev.fatal]
       else if hookRc = 1 then [Ev.condPost] else [])
  else
    [Ev.fatal]

/-- sp_sock_timeout: the timer callback; forwarded verbatim to the
pattern's timeout hook. -/
def sp_sock_timeout (hndl : Nat) : List Ev := [Ev.hookTimeout hndl]

/-- Check that every pattern-hook invocation in the trace happens while
the dispatcher's mutual-exclusion domain is held, starting from the given
lock depth.  A condWait keeps the depth: it releases and reacquires as a
matched pair. -/
def hooksUnderLock : List Ev → Nat → Bool
  | [], _ => true
  | Ev.lock :: tr, d => hooksUnderLock tr (d + 1)
  | Ev.unlock :: tr, d => (d != 0) && hooksUnderLock tr (d - 1)
  | e :: tr, d => (!e.isHook || d != 0) && hooksUnderLock tr d

/-- Run the trace from the given lock depth, returning the final depth, or
none if it ever unlocks at depth zero or waits on the condition variable
without holding the lock. -/
def lockBalance : List Ev → Nat → Option Nat
  | [], d => some d
  | Ev.lock :: tr, d => lockBalance tr (d + 1)
  | Ev.unlock :: tr, d => if d = 0 then none else lockBalance tr (d - 1)
  | Ev.condWait _ :: tr, d => if d = 0 then none else lockBalance tr d
  | _ :: tr, d => lockBalance tr d

/-- C6: terminate performs exactly three teardown steps in order: the
pattern's termination hook, then release of the Wait Monitor (condition
variable), then release of the dispatcher (aio) binding — nothing else,
nothing skipped, no other order. -/
theorem sp_sock_term_order :
    sp_sock_term = [Ev.hookTerm, Ev.condTerm, Ev.aioTerm] := rfl

/-- C7: notify_in posts a dispatcher event tagged SP_SOCK_EVENT_IN with
the pipe's in-event identity, notify_out posts one tagged
SP_SOCK_EVENT_OUT with the pipe's out-event identity, and neither call
synchronously invokes any pattern-behavior hook. -/
theorem sp_sock_in_out_post (p : Nat) :
    sp_sock_in p = [Ev.aioPost SP_SOCK_EVENT_IN (EvId.inevent p)] ∧
    sp_sock_out p = [Ev.aioPost SP_SOCK_EVENT_OUT (EvId.outevent p)] ∧
    (sp_sock_in p).countP Ev.isHook = 0 ∧
    (sp_sock_out p).countP Ev.isHook = 0 :=
  ⟨rfl, rfl, rfl, rfl⟩

/-- C2 counterexample: at level 1, which is not the generic socket level,
with a pattern hook that would accept the option (return code 0), neither
set_option nor get_option invokes the pattern hook at all — the request is
not forwarded — and both return -ENOPROTOOPT.  This refutes the claim that
requests with a non-generic level are forwarded to the pattern. -/
theorem sp_sock_opt_foreign_level_cex :
    (1 : Int) ≠ SP_SOL_SOCKET ∧
    (sp_sock_setopt 1 5 0).1.countP Ev.isHook = 0 ∧
    (sp_sock_setopt 1 5 0).2 = -ENOPROTOOPT ∧
    (sp_sock_getopt 1 5 0).1.countP Ev.isHook = 0 ∧
    (sp_sock_getopt 1 5 0).2 = -ENOPROTOOPT := by
  refine ⟨by decide, rfl, by decide, rfl, by decide⟩

/-- C2 amended: set_option and get_option forward the request to the
pattern's hook exactly when level equals the generic socket level
SP_SOL_SOCKET (with no generic option handled before the pattern sees it);
for every other level the pattern is never consulted and the call returns
-ENOPROTOOPT; and whenever the pattern does not recognize the option the
call likewise returns -ENOPROTOOPT — never success and never a crash. -/
theorem sp_sock_opt_dispatch (level option hookRc : Int) :
    (level = SP_SOL_SOCKET →
      (sp_sock_setopt level option hookRc).1
          = [Ev.lock, Ev.hookSetopt option hookRc, Ev.unlock] ∧
      (sp_sock_getopt level option hookRc).1
          = [Ev.lock, Ev.hookGetopt option hookRc, Ev.unlock]) ∧
    (level ≠ SP_SOL_SOCKET →
      (sp_sock_setopt level option hookRc).1.countP Ev.isHook = 0 ∧
      (sp_sock_setopt level option hookRc).2 = -ENOPROTOOPT ∧
      (sp_sock_getopt level option hookRc).1.countP Ev.isHook = 0 ∧
      (sp_sock_getopt level option hookRc).2 = -ENOPROTOOPT) ∧
    (hookRc = -ENOPROTOOPT →
      (sp_sock_setopt level option hookRc).2 = -ENOPROTOOPT ∧
      (sp_sock_getopt level option hookRc).2 = -ENOPROTOOPT) := by
  refine ⟨?_, ?_, ?_⟩
  · intro h
    subst h
    refine ⟨?_, ?_⟩ <;>
      · simp only [sp_sock_setopt, sp_sock_getopt, if_true]
        split <;> rfl
  · intro h
    unfold sp_sock_setopt sp_sock_getopt
    rw [if_neg h, if_neg h]
    exact ⟨by decide, rfl, by decide, rfl⟩
  · intro h
    subst h
    unfold sp_sock_setopt sp_sock_getopt
    refine ⟨?_, ?_⟩ <;> split <;> simp
/-- Witness for the amended C2 theorem at concrete inputs. -/
theorem sp_sock_opt_dispatch_witness :
    (sp_sock_setopt SP_SOL_SOCKET 7 3).1
        = [Ev.lock, Ev.hookSetopt 7 3, Ev.unlock] ∧
    (sp_sock_setopt 2 7 3).2 = -ENOPROTOOPT :=
  ⟨((sp_sock_opt_dispatch SP_SOL_SOCKET 7 3).1 rfl).1,
   ((sp_sock_opt_dispatch 2 7 3).2.1 (by decide)).2.1⟩

/-- C5: whenever the pattern's setopt/getopt hook is consulted (its
invocation appears in the trace) and returns anything other than
-ENOPROTOOPT — success or a value-rejected error alike — that result is
returned to the caller unchanged; only -ENOPROTOOPT falls through to the
final -ENOPROTOOPT failure. -/
theorem sp_sock_opt_passthrough (level option hookRc : Int) :
    (Ev.hookSetopt option hookRc ∈ (sp_sock_setopt level option hookRc).1 →
      (hookRc ≠ -ENOPROTOOPT → (sp_sock_setopt level option hookRc).2 = hookRc) ∧
      (hookRc = -ENOPROTOOPT →
        (sp_sock_setopt level option hookRc).2 = -ENOPROTOOPT)) ∧
    (Ev.hookGetopt option hookRc ∈ (sp_sock_getopt level option hookRc).1 →
      (hookRc ≠ -ENOPROTOOPT → (sp_sock_getopt level option hookRc).2 = hookRc) ∧
      (hookRc = -ENOPROTOOPT →
        (sp_sock_getopt level option hookRc).2 = -ENOPROTOOPT)) := by
  unfold sp_sock_setopt sp_sock_getopt
  constructor <;> intro _hmem <;>
    refine ⟨fun hne => ?_, fun heq => ?_⟩ <;>
    split <;> simp_all
/-- Witness for the C5 theorem at concrete inputs. -/
theorem sp_sock_opt_passthrough_witness :
    (sp_sock_setopt SP_SOL_SOCKET 7 (-22)).2 = -22 :=
  ((sp_sock_opt_passthrough SP_SOL_SOCKET 7 (-22)).1 (by decide)).1 (by decide)

/-- C8: the posted-event callback dispatches by tag: an in-tagged event
causes exactly one invocation of the pattern's in hook with the pipe
recovered from the in-event identity, an out-tagged event exactly one
invocation of the out hook with the pipe recovered from the out-event
identity, and the Wait Monitor is posted if and only if the invoked hook
reports readiness-changed (return code 1). -/
theorem sp_sock_event_dispatch (p : Nat) (rc : Int) (h : 0 ≤ rc) :
    sp_sock_event SP_SOCK_EVENT_IN (EvId.inevent p) rc
      = Ev.hookIn p rc :: (if rc = 1 then [Ev.condPost] else []) ∧
    sp_sock_event SP_SOCK_EVENT_OUT (EvId.outevent p) rc
      = Ev.hookOut p rc :: (if rc = 1 then [Ev.condPost] else []) ∧
    (Ev.condPost ∈ sp_sock_event SP_SOCK_EVENT_IN (EvId.inevent p) rc ↔ rc = 1) ∧
    (Ev.condPost ∈ sp_sock_event SP_SOCK_EVENT_OUT (EvId.outevent p) rc ↔ rc = 1) ∧
    (sp_sock_event SP_SOCK_EVENT_IN (EvId.inevent p) rc).countP Ev.isHook = 1 ∧
    (sp_sock_event SP_SOCK_EVENT_OUT (EvId.outevent p) rc).countP Ev.isHook = 1 := by
  have hneg : ¬rc < 0 := not_lt.mpr h
  unfold sp_sock_event
  simp only [EvId.pipe, if_neg hneg]
  norm_num [SP_SOCK_EVENT_IN, SP_SOCK_EVENT_OUT]
  by_cases h1 : rc = 1 <;>
    simp [h1, List.countP_cons, Ev.isHook]
/-- Witness for the C8 theorem at a concrete pipe and hook result. -/
theorem sp_sock_event_dispatch_witness :
    sp_sock_event SP_SOCK_EVENT_IN (EvId.inevent 4) 1
      = Ev.hookIn 4 1 :: (if (1 : Int) = 1 then [Ev.condPost] else []) :=
  (sp_sock_event_dispatch 4 1 (by decide)).1

/-- C9: internal-contract violations abort: the raw I/O callback body is a
fatal assertion whenever invoked, a posted event whose tag is neither the
in tag nor the out tag is a fatal assertion, and a negative result from
the pattern's in or out hook is a fatal assertion; these paths hand no
error back (the embedded callbacks return traces only — there is no result
channel to a caller). -/
theorem sp_sock_fatal_contracts :
    sp_sock_io_cb = [Ev.fatal] ∧
    (∀ (ev : Int) (hndl : EvId) (rc : Int),
      ev ≠ SP_SOCK_EVENT_IN → ev ≠ SP_SOCK_EVENT_OUT →
        sp_sock_event ev hndl rc = [Ev.fatal]) ∧
    (∀ (hndl : EvId) (rc : Int), rc < 0 →
      Ev.fatal ∈ sp_sock_event SP_SOCK_EVENT_IN hndl rc ∧
      Ev.fatal ∈ sp_sock_event SP_SOCK_EVENT_OUT hndl rc) := by
  refine ⟨rfl, ?_, ?_⟩
  · intro ev hndl rc hin hout
    unfold sp_sock_event
    rw [if_neg hin, if_neg hout]
  · intro hndl rc hneg
    unfold sp_sock_event
    constructor <;> simp [SP_SOCK_EVENT_IN, SP_SOCK_EVENT_OUT, hneg]
/-- Witness for the C9 theorem at concrete inputs. -/
theorem sp_sock_fatal_contracts_witness :
    sp_sock_event 3 (EvId.inevent 0) 0 = [Ev.fatal] ∧
    Ev.fatal ∈ sp_sock_event SP_SOCK_EVENT_IN (EvId.inevent 0) (-1) :=
  ⟨sp_sock_fatal_contracts.2.1 3 (EvId.inevent 0) 0 (by decide) (by decide),
   (sp_sock_fatal_contracts.2.2 (EvId.inevent 0) (-1) (by decide)).1⟩

/-- A blocking caller (SP_DONTWAIT clear) can never see -EAGAIN out of the
send loop: the would-block branch either returns it only under the flag or
waits and retries. -/
theorem sp_sock_send_loop_no_eagain (flags : Nat) (h : flags &&& SP_DONTWAIT = 0) :
    ∀ hook : List Int, (sp_sock_send_loop flags hook).2 ≠ some (-EAGAIN) := by
  intro hook
  induction hook with
  | nil => simp [sp_sock_send_loop]
  | cons rc rest ih =>
    unfold sp_sock_send_loop
    by_cases h0 : rc = 0
    · simp [h0, EAGAIN]
    · by_cases he : rc = -EAGAIN
      · subst he
        rw [if_neg (by decide : ¬(-EAGAIN : Int) = 0),
          if_neg (by simp : ¬(-EAGAIN : Int) ≠ -EAGAIN),
          if_neg (by simp [h])]
        exact ih
      · simp [h0, he]

/-- C1: the blocking-retry protocol of send.  The critical section is
acquired and the pattern's non-blocking send hook is invoked first; (a) a
hook success returns success; (b) any hook failure other than -EAGAIN is
propagated unchanged; (c) -EAGAIN with SP_DONTWAIT set returns -EAGAIN
immediately, the trace containing no wait; (d) otherwise the call waits on
the condition variable with infinite timeout (-1) and re-runs the loop on
the remaining hook results — and a blocking caller is never handed
-EAGAIN. -/
theorem sp_sock_send_protocol (flags : Nat) (rc : Int) (rest hook : List Int) :
    (sp_sock_send flags (rc :: rest)).1.take 2 = [Ev.lock, Ev.hookSend rc] ∧
    (rc = 0 →
      sp_sock_send flags (rc :: rest)
        = ([Ev.lock, Ev.hookSend 0, Ev.unlock], some 0)) ∧
    (rc ≠ 0 → rc ≠ -EAGAIN →
      sp_sock_send flags (rc :: rest)
        = ([Ev.lock, Ev.hookSend rc, Ev.unlock], some rc)) ∧
    (rc = -EAGAIN → flags &&& SP_DONTWAIT ≠ 0 →
      sp_sock_send flags (rc :: rest)
        = ([Ev.lock, Ev.hookSend rc, Ev.unlock], some (-EAGAIN))) ∧
    (rc = -EAGAIN → flags &&& SP_DONTWAIT = 0 →
      (sp_sock_send flags (rc :: rest)).1
          = Ev.lock :: Ev.hookSend rc :: Ev.condWait (-1)
              :: (sp_sock_send_loop flags rest).1 ∧
      (sp_sock_send flags (rc :: rest)).2 = (sp_sock_send_loop flags rest).2) ∧
    (flags &&& SP_DONTWAIT = 0 →
      (sp_sock_send flags hook).2 ≠ some (-EAGAIN)) := by
  refine ⟨?_, ?_, ?_, ?_, ?_, ?_⟩
  · unfold sp_sock_send sp_sock_send_loop
    split
    · rfl
    · split
      · rfl
      · split <;> rfl
  · intro h0
    subst h0
    unfold sp_sock_send sp_sock_send_loop
    rw [if_pos rfl]
  · intro h0 he
    unfold sp_sock_send sp_sock_send_loop
    rw [if_neg h0, if_pos he]
  · intro he hf
    subst he
    unfold sp_sock_send sp_sock_send_loop
    rw [if_neg (by decide : ¬(-EAGAIN : Int) = 0),
      if_neg (by simp : ¬(-EAGAIN : Int) ≠ -EAGAIN), if_pos hf]
  · intro he hf
    subst he
    simp only [sp_sock_send, sp_sock_send_loop]
    rw [if_neg (by decide : ¬(-EAGAIN : Int) = 0),
      if_neg (by simp : ¬(-EAGAIN : Int) ≠ -EAGAIN),
      if_neg (by simp [hf])]
    exact ⟨rfl, rfl⟩
  · intro hf
    exact sp_sock_send_loop_no_eagain flags hf hook
/-- Witness for the C1 theorem at concrete inputs: a non-blocking send
whose hook would block returns -EAGAIN at once, and a send whose hook
succeeds returns success. -/
theorem sp_sock_send_protocol_witness :
    sp_sock_send 1 [-EAGAIN]
      = ([Ev.lock, Ev.hookSend (-EAGAIN), Ev.unlock], some (-EAGAIN)) ∧
    sp_sock_send 0 [0] = ([Ev.lock, Ev.hookSend 0, Ev.unlock], some 0) :=
  ⟨(sp_sock_send_protocol 1 (-EAGAIN) [] []).2.2.2.1 rfl (by decide),
   (sp_sock_send_protocol 0 0 [] []).2.1 rfl⟩

/-- Rename a recv-hook invocation to the corresponding send-hook
invocation; every other action is kept as is. -/
def sendView : Ev → Ev
  | Ev.hookRecv rc => Ev.hookSend rc
  | e => e

/-- The recv loop is the send loop with the hook renamed: same branch
taken for every hook-result sequence and flag value. -/
theorem sp_sock_recv_loop_view (flags : Nat) :
    ∀ hook : List Int,
      (sp_sock_recv_loop flags hook).1.map sendView
          = (sp_sock_send_loop flags hook).1 ∧
      (sp_sock_recv_loop flags hook).2 = (sp_sock_send_loop flags hook).2 := by
  intro hook
  induction hook with
  | nil => simp [sp_sock_recv_loop, sp_sock_send_loop]
  | cons rc rest ih =>
    simp only [sp_sock_recv_loop, sp_sock_send_loop]
    by_cases h0 : rc = 0
    · simp [h0, sendView]
    · by_cases he : rc = -EAGAIN
      · subst he
        by_cases hf : flags &&& SP_DONTWAIT ≠ 0
        · simp [hf, sendView, EAGAIN]
        · rw [if_neg (by decide : ¬(-EAGAIN : Int) = 0),
            if_neg (by simp : ¬(-EAGAIN : Int) ≠ -EAGAIN), if_neg hf,
            if_neg (by decide : ¬(-EAGAIN : Int) = 0),
            if_neg (by simp : ¬(-EAGAIN : Int) ≠ -EAGAIN), if_neg hf]
          refine ⟨?_, ih.2⟩
          simp only [List.map_cons, sendView]
          rw [ih.1]
      · simp [h0, he, sendView]

/-- C4: receive implements exactly the control structure of send,
parameterized only by which pattern hook is invoked: mapping the
recv-to-send hook renaming over the receive trace yields the send trace,
and the returned result is identical, for every flag value and every
hook-result sequence. -/
theorem sp_sock_recv_mirrors_send (flags : Nat) (hook : List Int) :
    (sp_sock_recv flags hook).1.map sendView = (sp_sock_send flags hook).1 ∧
    (sp_sock_recv flags hook).2 = (sp_sock_send flags hook).2 := by
  have h := sp_sock_recv_loop_view flags hook
  unfold sp_sock_recv sp_sock_send
  simp only [List.map_cons]
  exact ⟨by rw [show sendView Ev.lock = Ev.lock from rfl, h.1], h.2⟩

/-- Inside the send loop every hook invocation happens at a positive lock
depth (the loop runs between the entry lock and the exit unlock, and the
monitor wait keeps the depth). -/
theorem sp_sock_send_loop_hooks_locked (flags : Nat) :
    ∀ (hook : List Int) (d : Nat),
      hooksUnderLock (sp_sock_send_loop flags hook).1 (d + 1) = true := by
  intro hook
  induction hook with
  | nil => intro d; rfl
  | cons rc rest ih =>
    intro d
    simp only [sp_sock_send_loop]
    by_cases h0 : rc = 0
    · rw [if_pos h0]
      rfl
    · rw [if_neg h0]
      by_cases he : rc ≠ -EAGAIN
      · rw [if_pos he]
        rfl
      · rw [if_neg he]
        by_cases hf : flags &&& SP_DONTWAIT ≠ 0
        · rw [if_pos hf]
          rfl
        · rw [if_neg hf]
          exact ih d

/-- Inside the recv loop every hook invocation happens at a positive lock
depth. -/
theorem sp_sock_recv_loop_hooks_locked (flags : Nat) :
    ∀ (hook : List Int) (d : Nat),
      hooksUnderLock (sp_sock_recv_loop flags hook).1 (d + 1) = true := by
  intro hook
  induction hook with
  | nil => intro d; rfl
  | cons rc rest ih =>
    intro d
    simp only [sp_sock_recv_loop]
    by_cases h0 : rc = 0
    · rw [if_pos h0]
      rfl
    · rw [if_neg h0]
      by_cases he : rc ≠ -EAGAIN
      · rw [if_pos he]
        rfl
      · rw [if_neg he]
        by_cases hf : flags &&& SP_DONTWAIT ≠ 0
        · rw [if_pos hf]
          rfl
        · rw [if_neg hf]
          exact ih d

/-- C3 counterexample: add_pipe and remove_pipe invoke the pattern's
add/rm hook without acquiring the dispatcher's mutual-exclusion domain:
called at lock depth zero, their hook runs at depth zero. -/
theorem sp_sock_add_rm_unlocked_cex :
    hooksUnderLock (sp_sock_add 0).1 0 = false ∧
    hooksUnderLock sp_sock_rm 0 = false := by decide

/-- C3 amended: set_option, get_option, send and receive invoke the
pattern hook only while holding the dispatcher's mutual-exclusion domain
(they lock on entry), and the dispatcher callbacks run at the positive
depth the dispatcher itself holds; add_pipe and remove_pipe, however,
forward the hook without acquiring the domain — their hook runs under the
domain only at a positive caller-held depth. -/
theorem sp_sock_hooks_under_lock :
    (∀ level option hookRc : Int,
      hooksUnderLock (sp_sock_setopt level option hookRc).1 0 = true) ∧
    (∀ level option hookRc : Int,
      hooksUnderLock (sp_sock_getopt level option hookRc).1 0 = true) ∧
    (∀ (flags : Nat) (hook : List Int),
      hooksUnderLock (sp_sock_send flags hook).1 0 = true) ∧
    (∀ (flags : Nat) (hook : List Int),
      hooksUnderLock (sp_sock_recv flags hook).1 0 = true) ∧
    (∀ (event : Int) (hndl : EvId) (rc : Int),
      hooksUnderLock (sp_sock_event event hndl rc) 1 = true) ∧
    (∀ hndl : Nat, hooksUnderLock (sp_sock_timeout hndl) 1 = true) ∧
    (∀ (hookRc : Int) (d : Nat),
      hooksUnderLock (sp_sock_add hookRc).1 (d + 1) = true) ∧
    (∀ d : Nat, hooksUnderLock sp_sock_rm (d + 1) = true) := by
  refine ⟨?_, ?_, ?_, ?_, ?_, fun _ => rfl, fun _ _ => rfl, fun _ => rfl⟩
  · intro level option hookRc
    unfold sp_sock_setopt
    split
    · split <;> rfl
    · rfl
  · intro level option hookRc
    unfold sp_sock_getopt
    split
    · split <;> rfl
    · rfl
  · intro flags hook
    exact sp_sock_send_loop_hooks_locked flags hook 0
  · intro flags hook
    exact sp_sock_recv_loop_hooks_locked flags hook 0
  · intro event hndl rc
    unfold sp_sock_event
    by_cases h1 : event = SP_SOCK_EVENT_IN
    · rw [if_pos h1]
      by_cases hn : rc < 0
      · rw [if_pos hn]
        rfl
      · rw [if_neg hn]
        by_cases he : rc = 1
        · rw [if_pos he]
          rfl
        · rw [if_neg he]
          rfl
    · rw [if_neg h1]
      by_cases h2 : event = SP_SOCK_EVENT_OUT
      · rw [if_pos h2]
        by_cases hn : rc < 0
        · rw [if_pos hn]
          rfl
        · rw [if_neg hn]
          by_cases he : rc = 1
          · rw [if_pos he]
            rfl
          · rw [if_neg he]
            rfl
      · rw [if_neg h2]
        rfl

/-- On every send-loop path that returns to the caller, the loop (entered
at depth one) ends at depth zero, acquires no further lock and performs
exactly one unlock; the monitor wait inside checks out as a matched
release/reacquire. -/
theorem sp_sock_send_loop_balance (flags : Nat) :
    ∀ (hook : List Int) (r : Int), (sp_sock_send_loop flags hook).2 = some r →
      lockBalance (sp_sock_send_loop flags hook).1 1 = some 0 ∧
      (sp_sock_send_loop flags hook).1.countP (fun e => e == Ev.lock) = 0 ∧
      (sp_sock_send_loop flags hook).1.countP (fun e => e == Ev.unlock) = 1 := by
  intro hook
  induction hook with
  | nil => intro r hr; simp [sp_sock_send_loop] at hr
  | cons rc rest ih =>
    intro r hr
    simp only [sp_sock_send_loop] at hr ⊢
    by_cases h0 : rc = 0
    · rw [if_pos h0]
      exact ⟨rfl, rfl, rfl⟩
    · rw [if_neg h0] at hr ⊢
      by_cases he : rc ≠ -EAGAIN
      · rw [if_pos he]
        exact ⟨rfl, rfl, rfl⟩
      · rw [if_neg he] at hr ⊢
        by_cases hf : flags &&& SP_DONTWAIT ≠ 0
        · rw [if_pos hf]
          exact ⟨rfl, rfl, rfl⟩
        · rw [if_neg hf] at hr ⊢
          obtain ⟨h1, h2, h3⟩ := ih r hr
          exact ⟨h1, h2, h3⟩

/-- Recv-loop analogue of the send-loop balance lemma. -/
theorem sp_sock_recv_loop_balance (flags : Nat) :
    ∀ (hook : List Int) (r : Int), (sp_sock_recv_loop flags hook).2 = some r →
      lockBalance (sp_sock_recv_loop flags hook).1 1 = some 0 ∧
      (sp_sock_recv_loop flags hook).1.countP (fun e => e == Ev.lock) = 0 ∧
      (sp_sock_recv_loop flags hook).1.countP (fun e => e == Ev.unlock) = 1 := by
  intro hook
  induction hook with
  | nil => intro r hr; simp [sp_sock_recv_loop] at hr
  | cons rc rest ih =>
    intro r hr
    simp only [sp_sock_recv_loop] at hr ⊢
    by_cases h0 : rc = 0
    · rw [if_pos h0]
      exact ⟨rfl, rfl, rfl⟩
    · rw [if_neg h0] at hr ⊢
      by_cases he : rc ≠ -EAGAIN
      · rw [if_pos he]
        exact ⟨rfl, rfl, rfl⟩
      · rw [if_neg he] at hr ⊢
        by_cases hf : flags &&& SP_DONTWAIT ≠ 0
        · rw [if_pos hf]
          exact ⟨rfl, rfl, rfl⟩
        · rw [if_neg hf] at hr ⊢
          obtain ⟨h1, h2, h3⟩ := ih r hr
          exact ⟨h1, h2, h3⟩

/-- C10: lock balance.  Every control-flow path of set_option and
get_option, and every returning path of send and receive, performs exactly
one unlock for the single lock acquired at entry: running the trace from
depth zero never unlocks below zero, never waits without the lock, and
ends back at depth zero, with lock count one and unlock count one. -/
theorem sp_sock_lock_balance :
    (∀ level option hookRc : Int,
      lockBalance (sp_sock_setopt level option hookRc).1 0 = some 0 ∧
      (sp_sock_setopt level option hookRc).1.countP (fun e => e == Ev.lock) = 1 ∧
      (sp_sock_setopt level option hookRc).1.countP (fun e => e == Ev.unlock) = 1) ∧
    (∀ level option hookRc : Int,
      lockBalance (sp_sock_getopt level option hookRc).1 0 = some 0 ∧
      (sp_sock_getopt level option hookRc).1.countP (fun e => e == Ev.lock) = 1 ∧
      (sp_sock_getopt level option hookRc).1.countP (fun e => e == Ev.unlock) = 1) ∧
    (∀ (flags : Nat) (hook : List Int) (r : Int),
      (sp_sock_send flags hook).2 = some r →
      lockBalance (sp_sock_send flags hook).1 0 = some 0 ∧
      (sp_sock_send flags hook).1.countP (fun e => e == Ev.lock) = 1 ∧
      (sp_sock_send flags hook).1.countP (fun e => e == Ev.unlock) = 1) ∧
    (∀ (flags : Nat) (hook : List Int) (r : Int),
      (sp_sock_recv flags hook).2 = some r →
      lockBalance (sp_sock_recv flags hook).1 0 = some 0 ∧
      (sp_sock_recv flags hook).1.countP (fun e => e == Ev.lock) = 1 ∧
      (sp_sock_recv flags hook).1.countP (fun e => e == Ev.unlock) = 1) := by
  refine ⟨?_, ?_, ?_, ?_⟩
  · intro level option hookRc
    unfold sp_sock_setopt
    split
    · split <;> exact ⟨rfl, rfl, rfl⟩
    · exact ⟨rfl, rfl, rfl⟩
  · intro level option hookRc
    unfold sp_sock_getopt
    split
    · split <;> exact ⟨rfl, rfl, rfl⟩
    · exact ⟨rfl, rfl, rfl⟩
  · intro flags hook r hr
    obtain ⟨h1, h2, h3⟩ := sp_sock_send_loop_balance flags hook r hr
    refine ⟨h1, ?_, ?_⟩
    · show (Ev.lock :: (sp_sock_send_loop flags hook).1).countP
          (fun e => e == Ev.lock) = 1
      rw [List.countP_cons]
      simp [h2]
    · show (Ev.lock :: (sp_sock_send_loop flags hook).1).countP
          (fun e => e == Ev.unlock) = 1
      rw [List.countP_cons]
      simp [h3]
  · intro flags hook r hr
    obtain ⟨h1, h2, h3⟩ := sp_sock_recv_loop_balance flags hook r hr
    refine ⟨h1, ?_, ?_⟩
    · show (Ev.lock :: (sp_sock_recv_loop flags hook).1).countP
          (fun e => e == Ev.lock) = 1
      rw [List.countP_cons]
      simp [h2]
    · show (Ev.lock :: (sp_sock_recv_loop flags hook).1).countP
          (fun e => e == Ev.unlock) = 1
      rw [List.countP_cons]
      simp [h3]
/-- Witness for the C10 theorem: a send whose first hook attempt succeeds
returns with the trace balanced. -/
theorem sp_sock_lock_balance_witness :
    lockBalance (sp_sock_send 1 [0]).1 0 = some 0 :=
  (sp_sock_lock_balance.2.2.1 1 [0] 0 rfl).1
